import Mathlib

/-!
Shallow embedding of the `accounts` app of the learnly-api repository
(src/accounts/models.py, src/accounts/serializers.py, src/accounts/views.py).

Conventions of the embedding:
* Time is modelled as `Nat` seconds; `timedelta(minutes=n)` is `minutes n = 60*n`,
  `django.utils.timezone.now()` is an explicit `now : Nat` argument.
* `random.choices(string.digits, k=6)` is modelled by a draw function
  `draws : Nat → Nat`; draw `i` picks digit `draws i % 10`.
* The database is a `DB` record holding the `Otp` and `CustomUser` tables as lists.
  Django addresses rows by primary key; the API code only ever saves or deletes an
  `Otp` row after `get` / `get_or_create` succeeded, which requires that exactly one
  row has the phone number (otherwise `MultipleObjectsReturned` is raised and the
  request aborts), so `Otp` rows are keyed here by `phone_number`, which is
  extensionally equivalent on every state the operations reach.  `CustomUser` rows
  keep an `id` because `request.user` and password change address users by id.
* A serializer raising `rest_framework.serializers.ValidationError` is answered by
  the framework with a structured 400; any other uncaught exception propagates as a
  500.  `Resp.clientError` and `Resp.serverError` record the two cases.
* Python string `isdigit` is modelled over the ASCII digits `'0'..'9'`, the only
  characters this codebase ever generates or compares.
-/

namespace Learnly

/-- models.py `generate_random_otp_code`: `''.join(random.choices(string.digits, k=6))`. -/
def generate_random_otp_code (draws : Nat → Nat) : String :=
  String.mk ((List.range 6).map (fun i => Char.ofNat (48 + draws i % 10)))

/-- models.py line 18: `otp_code = models.CharField(max_length=6,
default=generate_random_otp_code())` — the default is the value obtained by CALLING
the generator once, at model-definition time, with the process's draws at import
(`initDraws`); it is not a fresh per-row draw. -/
def otp_code_default (initDraws : Nat → Nat) : String :=
  generate_random_otp_code initDraws

/-- models.py `Otp`: `phone_number` CharField(11), `otp_code` CharField(6),
`created_at` DateTimeField(null=True). -/
structure Otp where
  phone_number : String
  otp_code : String
  created_at : Option Nat
deriving Repr, DecidableEq

def minutes (n : Nat) : Nat := 60 * n

/-- models.py `Otp.regenerate_otp`: draw a fresh code and save it. -/
def Otp.regenerate_otp (o : Otp) (draws : Nat → Nat) : Otp :=
  { o with otp_code := generate_random_otp_code draws }

/-- models.py `Otp.valid_delay`: if `created_at` is set (truthy) and
`now <= created_at + 3 minutes`, return `False` without touching the row; otherwise
set `created_at := now`, save, and return `True`. -/
def Otp.valid_delay (o : Otp) (now : Nat) : Bool × Otp :=
  match o.created_at with
  | some t =>
      if now ≤ t + minutes 3 then (false, o)
      else (true, { o with created_at := some now })
  | none => (true, { o with created_at := some now })

/-- models.py `Otp.is_otp_valid`: `self.otp_code == str(otp) and
now() <= self.created_at + timedelta(minutes=5)`.  Python's `and` short-circuits;
when the codes match but `created_at` is `None`, adding the timedelta raises a
`TypeError`, modelled by the `.error` case. -/
def Otp.is_otp_valid (o : Otp) (otp : String) (now : Nat) : Except String Bool :=
  if o.otp_code == otp then
    match o.created_at with
    | some t => .ok (decide (now ≤ t + minutes 5))
    | none => .error "TypeError"
  else .ok false

/-- models.py `CustomUser` (the fields the serializers read): unique `phone_number`,
hashed `password` (hashing is delegated to the framework and modelled as identity),
`is_active` from `AbstractUser`. -/
structure User where
  id : Nat
  phone_number : String
  password : String
  is_active : Bool
deriving Repr, DecidableEq

/-- The persisted state: the `Otp` table, the `CustomUser` table, and the id
sequence for new users. -/
structure DB where
  otps : List Otp
  users : List User
  nextUserId : Nat
deriving Repr, DecidableEq

/-- Outcome of a Django `Model.objects.get(...)` call: the unique matching row, or
the `DoesNotExist` / `MultipleObjectsReturned` exception. -/
inductive GetResult (α : Type) where
  | found : α → GetResult α
  | notFound
  | multiple
deriving Repr, DecidableEq

/-- `Otp.objects.get(phone_number=p)`: exactly one row or an ORM exception. -/
def DB.getOtp (db : DB) (p : String) : GetResult Otp :=
  match db.otps.filter (fun o => o.phone_number == p) with
  | [o] => .found o
  | [] => .notFound
  | _ => .multiple

/-- `CustomUser.objects.get(phone_number=p)`. -/
def DB.getUser (db : DB) (p : String) : GetResult User :=
  match db.users.filter (fun u => u.phone_number == p) with
  | [u] => .found u
  | [] => .notFound
  | _ => .multiple

/-- `otp.save()`: write the row back (keyed by phone number, see header note). -/
def DB.saveOtp (db : DB) (o : Otp) : DB :=
  { db with otps := db.otps.map (fun x => if x.phone_number == o.phone_number then o else x) }

/-- `otp.delete()`: remove the row. -/
def DB.deleteOtp (db : DB) (p : String) : DB :=
  { db with otps := db.otps.filter (fun x => !(x.phone_number == p)) }

/-- `user.save()`: write the row back, keyed by id. -/
def DB.saveUser (db : DB) (u : User) : DB :=
  { db with users := db.users.map (fun x => if x.id == u.id then u else x) }

/-- `Otp.objects.get_or_create(phone_number=p)`: return the existing row, or insert
a fresh one built from the field defaults (`otp_code := dflt`, the module-level
default; `created_at := None`); `MultipleObjectsReturned` propagates. -/
def DB.get_or_create_otp (db : DB) (p : String) (dflt : String) :
    Except String (Otp × Bool × DB) :=
  match db.getOtp p with
  | .found o => .ok (o, false, db)
  | .notFound =>
      let o : Otp := { phone_number := p, otp_code := dflt, created_at := none }
      .ok (o, true, { db with otps := db.otps ++ [o] })
  | .multiple => .error "Otp.MultipleObjectsReturned"

/-- `Modelled from the spec: accounts/managers.py (UserManager.create_user) is not
under src/; the spec (§8) says registration "creates exactly one new account".
It is modelled as inserting one fresh active user row; the `unique=True` constraint
on `CustomUser.phone_number` (models.py line 84, which IS under src/) makes the
underlying INSERT fail with `IntegrityError` when any row already holds the phone
number.` -/
def DB.create_user (db : DB) (phone pwd : String) : Except String (User × DB) :=
  if db.users.any (fun u => u.phone_number == phone) then .error "IntegrityError"
  else
    let u : User := { id := db.nextUserId, phone_number := phone, password := pwd,
                      is_active := true }
    .ok (u, { db with users := db.users ++ [u], nextUserId := db.nextUserId + 1 })

/-- Python truthiness of `validated_data.get('password')`: `None` and `''` are falsy. -/
def pyTruthyStr : Option String → Bool
  | none => false
  | some s => !s.isEmpty

/-- Python `str.isdigit` restricted to ASCII: nonempty and all characters `'0'..'9'`. -/
def pyIsDigit (s : String) : Bool :=
  !s.isEmpty && s.data.all Char.isDigit

/-- The HTTP-visible outcome of one request: success, a DRF `ValidationError`
surfaced as a structured 400, or an uncaught exception surfaced as a 500. -/
inductive Resp where
  | ok
  | clientError (msg : String)
  | serverError (exn : String)
deriving Repr, DecidableEq

/-- serializers.py `OtpRequestSerializer.create` (+ `OtpRequestView.post`):
`get_or_create`, then `valid_delay` gates the resend cooldown; on success the
timestamp was saved, the code is regenerated from a fresh draw and saved, and the
SMS is sent (no state). -/
def otpRequest (db : DB) (phone : String) (now : Nat) (draws : Nat → Nat)
    (dflt : String) : Resp × DB :=
  match db.get_or_create_otp phone dflt with
  | .error e => (.serverError e, db)
  | .ok (otp, _, db1) =>
    match otp.valid_delay now with
    | (false, _) => (.clientError "OTP has not expired.", db1)
    | (true, otp1) =>
        let db2 := db1.saveOtp otp1
        let otp2 := otp1.regenerate_otp draws
        ((.ok : Resp), db2.saveOtp otp2)

/-- serializers.py `BaseOtpVerificationSerializer.validate`: look the row up
(`DoesNotExist` is caught and turned into a `ValidationError`), then
`if not otp_code.is_otp_valid(otp) or not otp.isdigit(): raise ValidationError`;
on success the row is remembered as `self.otp_verification`. -/
def baseValidate (db : DB) (phone otp : String) (now : Nat) : Except Resp Otp :=
  match db.getOtp phone with
  | .notFound => .error (.clientError "invalid otp code or phone number.")
  | .multiple => .error (.serverError "Otp.MultipleObjectsReturned")
  | .found otp_code =>
    match otp_code.is_otp_valid otp now with
    | .error e => .error (.serverError e)
    | .ok valid =>
        if !valid || !pyIsDigit otp then .error (.clientError "otp code invalid")
        else .ok otp_code

/-- serializers.py `VerifyUserOtpSerializer` (+ `VerifyUserOtpView.post`): base
validation, then `create`: find the first ACTIVE user with the phone; if none,
require a truthy password and `create_user`; finally delete the consumed OTP row. -/
def verifyUserOtp (db : DB) (phone otp : String) (password : Option String)
    (now : Nat) : Resp × DB :=
  match baseValidate db phone otp now with
  | .error r => (r, db)
  | .ok otpRec =>
    match db.users.find? (fun u => u.phone_number == phone && u.is_active) with
    | some _ => ((.ok : Resp), db.deleteOtp otpRec.phone_number)
    | none =>
        if !pyTruthyStr password then
          (.clientError "Password is required for registration", db)
        else
          match db.create_user phone (password.getD "") with
          | .error e => (.serverError e, db)
          | .ok (_, db1) => ((.ok : Resp), db1.deleteOtp otpRec.phone_number)

/-- serializers.py `ForgotPasswordSerializer.validate`: base validation, then the
confirm/new match check, then `password_validation.validate_password` — the strength
validators live in project settings (not under src/), modelled by the predicate
`strongPwd`. -/
def forgotPasswordValidate (db : DB) (phone otp newPwd confirmPwd : String)
    (now : Nat) (strongPwd : String → Bool) : Except Resp Otp :=
  match baseValidate db phone otp now with
  | .error r => .error r
  | .ok o =>
    if confirmPwd != newPwd then
      .error (.clientError "New password and confirm password do not match")
    else if !strongPwd newPwd then .error (.clientError "password validation failed")
    else .ok o

/-- serializers.py `ForgotPasswordSerializer` (+ `ForgotPasswordView.post`):
validation, then `save`: `get_user` runs `CustomUser.objects.get(phone_number=...)`
with NO try/except, so `DoesNotExist` propagates uncaught (a 500); on success the
password is set and the consumed OTP row deleted. -/
def forgotPassword (db : DB) (phone otp newPwd confirmPwd : String) (now : Nat)
    (strongPwd : String → Bool) : Resp × DB :=
  match forgotPasswordValidate db phone otp newPwd confirmPwd now strongPwd with
  | .error r => (r, db)
  | .ok otpRec =>
    match db.getUser phone with
    | .notFound => (.serverError "CustomUser.DoesNotExist", db)
    | .multiple => (.serverError "CustomUser.MultipleObjectsReturned", db)
    | .found user =>
        let db1 := db.saveUser { user with password := newPwd }
        ((.ok : Resp), db1.deleteOtp otpRec.phone_number)

/-- serializers.py `ChangePhoneNumberSerializer` (+ `ChangePhoneNumberView.post`):
base validation of the OTP sent to the NEW number, then `save`: the authenticated
`request.user` (addressed by id; `IsAuthenticated` guarantees it exists), a
`filter(phone_number=new).exists()` conflict check that raises `ValidationError`
before any mutation, then the phone is updated and the consumed OTP row deleted. -/
def changePhoneNumber (db : DB) (requesterId : Nat) (newPhone otp : String)
    (now : Nat) : Resp × DB :=
  match baseValidate db newPhone otp now with
  | .error r => (r, db)
  | .ok otpRec =>
    match db.users.find? (fun u => u.id == requesterId) with
    | none => (.serverError "AnonymousUser", db)
    | some user =>
        if db.users.any (fun u => u.phone_number == newPhone) then
          (.clientError "phone number already exists", db)
        else
          let db1 := db.saveUser { user with phone_number := newPhone }
          ((.ok : Resp), db1.deleteOtp otpRec.phone_number)

/-- The spec's §3 invariant: at most one live `Otp` row per phone number. -/
@[reducible]
def AtMostOnePerPhone (db : DB) : Prop :=
  db.otps.Pairwise (fun a b => a.phone_number ≠ b.phone_number)

/-! ### Lemmas about the store operations -/

theorem phone_of_filter_single {l : List Otp} {p : String} {o : Otp}
    (h : l.filter (fun x => x.phone_number == p) = [o]) : o.phone_number = p := by
  have hm : o ∈ l.filter (fun x => x.phone_number == p) := by
    rw [h]; exact List.mem_singleton.mpr rfl
  exact eq_of_beq (List.mem_filter.mp hm).2

theorem getOtp_found {db : DB} {p : String} {o : Otp}
    (h : db.otps.filter (fun x => x.phone_number == p) = [o]) :
    db.getOtp p = .found o := by
  simp [DB.getOtp, h]

theorem getOtp_notFound {db : DB} {p : String}
    (h : db.otps.filter (fun x => x.phone_number == p) = []) :
    db.getOtp p = .notFound := by
  simp [DB.getOtp, h]

theorem getUser_found {db : DB} {p : String} {u : User}
    (h : db.users.filter (fun x => x.phone_number == p) = [u]) :
    db.getUser p = .found u := by
  simp [DB.getUser, h]

theorem getUser_notFound {db : DB} {p : String}
    (h : db.users.filter (fun x => x.phone_number == p) = []) :
    db.getUser p = .notFound := by
  simp [DB.getUser, h]

theorem deleteOtp_filter (db : DB) (p : String) :
    (db.deleteOtp p).otps.filter (fun x => x.phone_number == p) = [] := by
  simp [DB.deleteOtp, List.filter_filter]

theorem baseValidate_after_delete (db : DB) (p otp : String) (now : Nat) :
    baseValidate (db.deleteOtp p) p otp now
      = .error (.clientError "invalid otp code or phone number.") := by
  simp [baseValidate, getOtp_notFound (deleteOtp_filter db p)]

theorem filter_map_replace (l : List Otp) (q : Otp → Bool) (n : Otp) (hq : q n = true) :
    (l.map (fun x => if q x then n else x)).filter q = (l.filter q).map (fun _ => n) := by
  induction l with
  | nil => rfl
  | cons a t ih =>
      by_cases h : q a = true
      · simp [List.filter_cons, h, hq, ih]
      · simp [List.filter_cons, h, ih]

theorem saveOtp_filter {db : DB} {p : String} {o n : Otp}
    (hfo : db.otps.filter (fun x => x.phone_number == p) = [o])
    (hn : n.phone_number = p) :
    (db.saveOtp n).otps.filter (fun x => x.phone_number == p) = [n] := by
  have he : (db.saveOtp n).otps
      = db.otps.map (fun x => if x.phone_number == p then n else x) := by
    simp [DB.saveOtp, hn]
  rw [he, filter_map_replace _ _ _ (by simp [hn]), hfo]
  rfl

theorem is_otp_valid_true {o : Otp} {code : String} {t now : Nat}
    (hcode : o.otp_code = code) (hct : o.created_at = some t)
    (hwin : now ≤ t + minutes 5) :
    o.is_otp_valid code now = .ok true := by
  simp [Otp.is_otp_valid, hcode, hct, hwin]

theorem is_otp_valid_expired {o : Otp} {code : String} {t now : Nat}
    (hcode : o.otp_code = code) (hct : o.created_at = some t)
    (hlate : t + minutes 5 < now) :
    o.is_otp_valid code now = .ok false := by
  simp [Otp.is_otp_valid, hcode, hct]
  omega

theorem baseValidate_ok {db : DB} {phone code : String} {o : Otp} {t now : Nat}
    (hfo : db.otps.filter (fun x => x.phone_number == phone) = [o])
    (hcode : o.otp_code = code) (hct : o.created_at = some t)
    (hwin : now ≤ t + minutes 5) (hdig : pyIsDigit code = true) :
    baseValidate db phone code now = .ok o := by
  simp [baseValidate, getOtp_found hfo, is_otp_valid_true hcode hct hwin, hdig]

theorem baseValidate_expired {db : DB} {phone code : String} {o : Otp} {t now : Nat}
    (hfo : db.otps.filter (fun x => x.phone_number == phone) = [o])
    (hcode : o.otp_code = code) (hct : o.created_at = some t)
    (hlate : t + minutes 5 < now) :
    baseValidate db phone code now = .error (.clientError "otp code invalid") := by
  simp [baseValidate, getOtp_found hfo, is_otp_valid_expired hcode hct hlate]

theorem baseValidate_nondigit {db : DB} {phone otp : String} {o : Otp} {now : Nat}
    (hfo : db.otps.filter (fun x => x.phone_number == phone) = [o])
    (hdig : pyIsDigit otp = false) :
    ∃ r, baseValidate db phone otp now = .error r ∧ r ≠ Resp.ok := by
  unfold baseValidate
  rw [getOtp_found hfo]
  cases h : o.is_otp_valid otp now with
  | error e => exact ⟨.serverError e, by simp [h], by simp⟩
  | ok v => exact ⟨.clientError "otp code invalid", by simp [h, hdig], by simp⟩

theorem pyTruthyStr_some {p : String} (h : p ≠ "") : pyTruthyStr (some p) = true := by
  simp only [pyTruthyStr, Bool.not_eq_true']
  rw [← Bool.not_eq_true]
  intro he
  exact h ((String.isEmpty_iff p).mp he)

theorem create_user_ok {db : DB} {phone pwd : String}
    (h : db.users.any (fun u => u.phone_number == phone) = false) :
    db.create_user phone pwd
      = .ok ({ id := db.nextUserId, phone_number := phone, password := pwd,
               is_active := true },
             { db with
                users := db.users ++
                  [{ id := db.nextUserId, phone_number := phone, password := pwd,
                     is_active := true }],
                nextUserId := db.nextUserId + 1 }) := by
  simp [DB.create_user, h]

/-! ### Invariant preservation lemmas -/

theorem replace_phone (o x : Otp) :
    (if x.phone_number == o.phone_number then o else x).phone_number
      = x.phone_number := by
  split
  next hcond => exact (eq_of_beq hcond).symm
  next => rfl

theorem atMostOne_saveOtp (db : DB) (o : Otp) (h : AtMostOnePerPhone db) :
    AtMostOnePerPhone (db.saveOtp o) := by
  show ((db.otps.map _).Pairwise _)
  rw [List.pairwise_map]
  refine h.imp ?_
  intro a b hab
  simpa only [replace_phone] using hab

theorem atMostOne_deleteOtp (db : DB) (p : String) (h : AtMostOnePerPhone db) :
    AtMostOnePerPhone (db.deleteOtp p) :=
  List.Pairwise.sublist (List.filter_sublist _) h

theorem filter_of_getOtp_notFound {db : DB} {p : String}
    (hg : db.getOtp p = .notFound) :
    db.otps.filter (fun x => x.phone_number == p) = [] := by
  unfold DB.getOtp at hg
  rcases hf : db.otps.filter (fun x => x.phone_number == p) with _ | ⟨a, _ | ⟨b, l⟩⟩ <;>
    rw [hf] at hg <;> simp_all

theorem atMostOne_get_or_create {db : DB} {p dflt : String} {o : Otp} {b : Bool}
    {db1 : DB} (hgc : db.get_or_create_otp p dflt = .ok (o, b, db1))
    (h : AtMostOnePerPhone db) : AtMostOnePerPhone db1 := by
  unfold DB.get_or_create_otp at hgc
  cases hg : db.getOtp p <;> rw [hg] at hgc
  case found a =>
    simp only [Except.ok.injEq, Prod.mk.injEq] at hgc
    rw [← hgc.2.2]
    exact h
  case notFound =>
    simp only [Except.ok.injEq, Prod.mk.injEq] at hgc
    rw [← hgc.2.2]
    show (db.otps ++ [_]).Pairwise _
    rw [List.pairwise_append]
    refine ⟨h, List.pairwise_singleton _ _, ?_⟩
    intro a ha c hc
    rw [List.mem_singleton] at hc
    subst hc
    have hne := List.filter_eq_nil_iff.mp (filter_of_getOtp_notFound hg) a ha
    simpa using hne
  case multiple => exact absurd hgc (by simp)

theorem get_or_create_created_code {db : DB} {p dflt : String} {o : Otp} {db1 : DB}
    (h : db.get_or_create_otp p dflt = .ok (o, true, db1)) : o.otp_code = dflt := by
  unfold DB.get_or_create_otp at h
  cases hg : db.getOtp p <;> rw [hg] at h <;> simp_all
  rw [← h.1]

theorem atMostOne_otpRequest (db : DB) (phone : String) (now : Nat)
    (draws : Nat → Nat) (dflt : String) (h : AtMostOnePerPhone db) :
    AtMostOnePerPhone (otpRequest db phone now draws dflt).snd := by
  unfold otpRequest
  cases hgc : db.get_or_create_otp phone dflt with
  | error e => exact h
  | ok x =>
      obtain ⟨otp, b, db1⟩ := x
      have h1 := atMostOne_get_or_create hgc h
      dsimp only
      cases hvd : otp.valid_delay now with
      | mk created otp1 =>
          cases created <;> dsimp only
          · exact h1
          · exact atMostOne_saveOtp _ _ (atMostOne_saveOtp _ _ h1)

theorem atMostOne_verifyUserOtp (db : DB) (phone otp : String)
    (pw : Option String) (now : Nat) (h : AtMostOnePerPhone db) :
    AtMostOnePerPhone (verifyUserOtp db phone otp pw now).snd := by
  unfold verifyUserOtp
  cases hv : baseValidate db phone otp now with
  | error r => exact h
  | ok otpRec =>
      cases hu : db.users.find? (fun u => u.phone_number == phone && u.is_active) with
      | some u => exact atMostOne_deleteOtp _ _ h
      | none =>
          by_cases hp : pyTruthyStr pw = true
          · simp only [hp, Bool.not_true]
            cases hc : db.create_user phone (pw.getD "") with
            | error e => exact h
            | ok x =>
                obtain ⟨u, db1⟩ := x
                have hotps : db1.otps = db.otps := by
                  unfold DB.create_user at hc
                  split at hc <;> simp_all
                  rw [← hc.2]
                refine atMostOne_deleteOtp db1 _ ?_
                show db1.otps.Pairwise _
                rw [hotps]
                exact h
          · simp only [Bool.not_eq_true] at hp
            simp only [hp, Bool.not_false, if_true]
            exact h

theorem atMostOne_forgotPassword (db : DB) (phone otp newPwd confirmPwd : String)
    (now : Nat) (strong : String → Bool) (h : AtMostOnePerPhone db) :
    AtMostOnePerPhone (forgotPassword db phone otp newPwd confirmPwd now strong).snd := by
  unfold forgotPassword
  cases hv : forgotPasswordValidate db phone otp newPwd confirmPwd now strong with
  | error r => exact h
  | ok otpRec =>
      cases hg : db.getUser phone with
      | found user =>
          refine atMostOne_deleteOtp _ _ ?_
          show (db.saveUser _).otps.Pairwise _
          exact h
      | notFound => exact h
      | multiple => exact h

theorem atMostOne_changePhoneNumber (db : DB) (rid : Nat) (newPhone otp : String)
    (now : Nat) (h : AtMostOnePerPhone db) :
    AtMostOnePerPhone (changePhoneNumber db rid newPhone otp now).snd := by
  unfold changePhoneNumber
  cases hv : baseValidate db newPhone otp now with
  | error r => exact h
  | ok otpRec =>
      cases hu : db.users.find? (fun u => u.id == rid) with
      | none => exact h
      | some user =>
          by_cases hex : db.users.any (fun u => u.phone_number == newPhone) = true
          · simp only [hex, if_true]
            exact h
          · simp only [Bool.not_eq_true] at hex
            simp only [hex, Bool.false_eq_true, if_false]
            refine atMostOne_deleteOtp _ _ ?_
            show (db.saveUser _).otps.Pairwise _
            exact h

/-! ### Concrete states used by witnesses and counterexamples -/

/-- A state with one valid OTP row and no accounts. -/
def dbNew : DB :=
  { otps := [{ phone_number := "09123456789", otp_code := "123456", created_at := some 0 }],
    users := [], nextUserId := 1 }

/-- A state with one valid OTP row and an active account owning the number. -/
def dbReg : DB :=
  { otps := [{ phone_number := "09123456789", otp_code := "123456", created_at := some 0 }],
    users := [{ id := 1, phone_number := "09123456789", password := "pw0",
                is_active := true }],
    nextUserId := 2 }

/-- A state where the OTP's phone number belongs to an INACTIVE account. -/
def dbInactive : DB :=
  { otps := [{ phone_number := "09120000002", otp_code := "654321", created_at := some 0 }],
    users := [{ id := 1, phone_number := "09120000002", password := "pw0",
                is_active := false }],
    nextUserId := 2 }

/-- A state with two active accounts; the OTP targets the second account's number. -/
def dbTwo : DB :=
  { otps := [{ phone_number := "09222222222", otp_code := "654321", created_at := some 0 }],
    users := [{ id := 1, phone_number := "09111111111", password := "a", is_active := true },
              { id := 2, phone_number := "09222222222", password := "b", is_active := true }],
    nextUserId := 3 }

/-! ### The claims -/

/-- C7: the default OTP code is computed once, at model-definition time
(models.py line 18 CALLS `generate_random_otp_code()` instead of passing the
function): any two rows created in the same process without an explicit code,
before regeneration, carry equal initial codes, whatever states and phone numbers
the two creations see. -/
theorem C7_default_code_computed_once (initDraws : Nat → Nat)
    (db1 db2 : DB) (p1 p2 : String) (o1 o2 : Otp) (r1 r2 : DB)
    (h1 : db1.get_or_create_otp p1 (otp_code_default initDraws) = .ok (o1, true, r1))
    (h2 : db2.get_or_create_otp p2 (otp_code_default initDraws) = .ok (o2, true, r2)) :
    o1.otp_code = o2.otp_code := by
  rw [get_or_create_created_code h1, get_or_create_created_code h2]

/-- Witness for C7 at two concrete creations in the empty state. -/
theorem C7_witness :
    ({ phone_number := "09111111111", otp_code := "000000", created_at := none } : Otp).otp_code
      = ({ phone_number := "09222222222", otp_code := "000000",
           created_at := none } : Otp).otp_code :=
  C7_default_code_computed_once (fun _ => 0)
    { otps := [], users := [], nextUserId := 0 }
    { otps := [], users := [], nextUserId := 0 }
    "09111111111" "09222222222"
    { phone_number := "09111111111", otp_code := "000000", created_at := none }
    { phone_number := "09222222222", otp_code := "000000", created_at := none }
    { otps := [{ phone_number := "09111111111", otp_code := "000000", created_at := none }],
      users := [], nextUserId := 0 }
    { otps := [{ phone_number := "09222222222", otp_code := "000000", created_at := none }],
      users := [], nextUserId := 0 }
    (by rfl) (by rfl)

/-- C8: under sequential execution every operation of the OTP lifecycle preserves
the invariant of at most one live OTP row per phone number: the request operation
looks up or creates, and the three verify-and-consume flows only delete. -/
theorem C8_invariant_preserved (db : DB) (h : AtMostOnePerPhone db) :
    (∀ phone now draws dflt,
        AtMostOnePerPhone (otpRequest db phone now draws dflt).snd)
    ∧ (∀ phone otp pw now,
        AtMostOnePerPhone (verifyUserOtp db phone otp pw now).snd)
    ∧ (∀ phone otp newPwd confirmPwd now strong,
        AtMostOnePerPhone (forgotPassword db phone otp newPwd confirmPwd now strong).snd)
    ∧ (∀ rid newPhone otp now,
        AtMostOnePerPhone (changePhoneNumber db rid newPhone otp now).snd) :=
  ⟨fun phone now draws dflt => atMostOne_otpRequest db phone now draws dflt h,
   fun phone otp pw now => atMostOne_verifyUserOtp db phone otp pw now h,
   fun phone otp a b now s => atMostOne_forgotPassword db phone otp a b now s h,
   fun rid np otp now => atMostOne_changePhoneNumber db rid np otp now h⟩

/-- Witness for C8 on the empty state and a first OTP request. -/
theorem C8_witness :
    AtMostOnePerPhone (otpRequest { otps := [], users := [], nextUserId := 0 }
      "09123456789" 0 (fun _ => 0) "000000").snd :=
  (C8_invariant_preserved { otps := [], users := [], nextUserId := 0 } (by decide)).1
    "09123456789" 0 (fun _ => 0) "000000"

/-- C2: a second OTP request within the 3-minute cooldown of the stored timestamp
fails with the rate-limit validation error and leaves the state unchanged; a
request strictly after the cooldown succeeds, sets `created_at` to the current
time and regenerates the code by a fresh random draw (hence a code different from
the first whenever the fresh draw differs). -/
theorem C2_request_cooldown (db : DB) (phone dflt : String) (o : Otp) (t now : Nat)
    (draws : Nat → Nat)
    (hfo : db.otps.filter (fun x => x.phone_number == phone) = [o])
    (hct : o.created_at = some t) :
    (now ≤ t + minutes 3 →
        otpRequest db phone now draws dflt = (.clientError "OTP has not expired.", db))
    ∧ (t + minutes 3 < now →
        (otpRequest db phone now draws dflt).fst = .ok ∧
        (otpRequest db phone now draws dflt).snd.otps.filter
            (fun x => x.phone_number == phone)
          = [{ phone_number := phone, otp_code := generate_random_otp_code draws,
               created_at := some now }]) := by
  obtain ⟨op, oc, oca⟩ := o
  have hop : op = phone := phone_of_filter_single hfo
  subst hop
  have hct' : oca = some t := hct
  subst hct'
  have hgc : db.get_or_create_otp op dflt = .ok (⟨op, oc, some t⟩, false, db) := by
    simp [DB.get_or_create_otp, getOtp_found hfo]
  constructor
  · intro h
    simp [otpRequest, hgc, Otp.valid_delay, h]
  · intro h
    have hcond : ¬ (now ≤ t + minutes 3) := by omega
    have hvd : Otp.valid_delay ⟨op, oc, some t⟩ now = (true, ⟨op, oc, some now⟩) := by
      simp [Otp.valid_delay, hcond]
    have hflow : otpRequest db op now draws dflt
        = ((.ok : Resp),
           (db.saveOtp ⟨op, oc, some now⟩).saveOtp
             ⟨op, generate_random_otp_code draws, some now⟩) := by
      simp [otpRequest, hgc, hvd, Otp.regenerate_otp]
    rw [hflow]
    exact ⟨rfl, saveOtp_filter (saveOtp_filter hfo rfl) rfl⟩

/-- Witness for C2 at a request 200 seconds after issuance. -/
theorem C2_witness :
    (otpRequest dbNew "09123456789" 200 (fun _ => 1) "000000").fst = Resp.ok ∧
    (otpRequest dbNew "09123456789" 200 (fun _ => 1) "000000").snd.otps.filter
        (fun x => x.phone_number == "09123456789")
      = [{ phone_number := "09123456789",
           otp_code := generate_random_otp_code (fun _ => 1),
           created_at := some 200 }] :=
  (C2_request_cooldown dbNew "09123456789" "000000"
      { phone_number := "09123456789", otp_code := "123456", created_at := some 0 }
      0 200 (fun _ => 1) (by decide) rfl).2 (by decide)

/-- C3: verifying the matching code strictly after the 5-minute validity window
fails with the invalid-OTP validation error in all three verify flows, and the
state — hence the stored OTP row — is unchanged. -/
theorem C3_expired_fails_entry_kept (db : DB) (phone code : String) (o : Otp)
    (t now : Nat)
    (hfo : db.otps.filter (fun x => x.phone_number == phone) = [o])
    (hcode : o.otp_code = code) (hct : o.created_at = some t)
    (hlate : t + minutes 5 < now) :
    (∀ pw, verifyUserOtp db phone code pw now = (.clientError "otp code invalid", db))
    ∧ (∀ newPwd confirmPwd strong,
        forgotPassword db phone code newPwd confirmPwd now strong
          = (.clientError "otp code invalid", db))
    ∧ (∀ rid, changePhoneNumber db rid phone code now
          = (.clientError "otp code invalid", db)) := by
  have hv := baseValidate_expired hfo hcode hct hlate
  refine ⟨fun pw => ?_, fun a b s => ?_, fun rid => ?_⟩
  · simp [verifyUserOtp, hv]
  · simp [forgotPassword, forgotPasswordValidate, hv]
  · simp [changePhoneNumber, hv]

/-- Witness for C3 one second after the window closes. -/
theorem C3_witness :
    verifyUserOtp dbNew "09123456789" "123456" none 301
      = (Resp.clientError "otp code invalid", dbNew) :=
  (C3_expired_fails_entry_kept dbNew "09123456789" "123456"
      { phone_number := "09123456789", otp_code := "123456", created_at := some 0 }
      0 301 (by decide) rfl rfl (by decide)).1 none

/-- C1: with a stored OTP row whose code matches and the current time inside the
5-minute validity window, each verify-and-act flow (registration/login, password
reset, phone change) succeeds and deletes the row; re-verifying the same phone
number and code afterwards fails with the not-found validation error, the row
being absent. -/
theorem C1_verify_consumes_once (db : DB) (phone code : String) (o : Otp)
    (t now : Nat)
    (hfo : db.otps.filter (fun x => x.phone_number == phone) = [o])
    (hcode : o.otp_code = code) (hct : o.created_at = some t)
    (hwin : now ≤ t + minutes 5) (hdig : pyIsDigit code = true) :
    (∀ pw u, db.users.find? (fun x => x.phone_number == phone && x.is_active) = some u →
        verifyUserOtp db phone code pw now = ((.ok : Resp), db.deleteOtp phone) ∧
        ∀ t2, baseValidate (verifyUserOtp db phone code pw now).snd phone code t2
          = .error (.clientError "invalid otp code or phone number."))
    ∧ (∀ newPwd strong u,
        db.users.filter (fun x => x.phone_number == phone) = [u] →
        strong newPwd = true →
        (forgotPassword db phone code newPwd newPwd now strong).fst = .ok ∧
        ∀ t2, baseValidate (forgotPassword db phone code newPwd newPwd now strong).snd
            phone code t2
          = .error (.clientError "invalid otp code or phone number."))
    ∧ (∀ rid u, db.users.find? (fun x => x.id == rid) = some u →
        db.users.any (fun x => x.phone_number == phone) = false →
        (changePhoneNumber db rid phone code now).fst = .ok ∧
        ∀ t2, baseValidate (changePhoneNumber db rid phone code now).snd phone code t2
          = .error (.clientError "invalid otp code or phone number.")) := by
  have hop : o.phone_number = phone := phone_of_filter_single hfo
  have hv := baseValidate_ok hfo hcode hct hwin hdig
  refine ⟨?_, ?_, ?_⟩
  · intro pw u hu
    have hres : verifyUserOtp db phone code pw now = ((.ok : Resp), db.deleteOtp phone) := by
      simp [verifyUserOtp, hv, hu, hop]
    exact ⟨hres, fun t2 => by rw [hres]; exact baseValidate_after_delete db phone code t2⟩
  · intro newPwd strong u hu hs
    have hres : forgotPassword db phone code newPwd newPwd now strong
        = ((.ok : Resp), (db.saveUser { u with password := newPwd }).deleteOtp phone) := by
      simp [forgotPassword, forgotPasswordValidate, hv, hs, getUser_found hu, hop]
    rw [hres]
    exact ⟨rfl, fun t2 => baseValidate_after_delete _ phone code t2⟩
  · intro rid u hu hnone
    have hres : changePhoneNumber db rid phone code now
        = ((.ok : Resp), (db.saveUser { u with phone_number := phone }).deleteOtp phone) := by
      simp [changePhoneNumber, hv, hu, hnone, hop]
    rw [hres]
    exact ⟨rfl, fun t2 => baseValidate_after_delete _ phone code t2⟩

/-- Witness for C1: the registration/login flow consumes the OTP in `dbReg`. -/
theorem C1_witness :
    verifyUserOtp dbReg "09123456789" "123456" none 10
      = ((Resp.ok : Resp), dbReg.deleteOtp "09123456789") :=
  ((C1_verify_consumes_once dbReg "09123456789" "123456"
      { phone_number := "09123456789", otp_code := "123456", created_at := some 0 }
      0 10 (by decide) rfl rfl (by decide) (by decide)).1 none
      { id := 1, phone_number := "09123456789", password := "pw0", is_active := true }
      (by decide)).1

/-- C5: changing to a phone number already owned by another account fails with the
conflict validation error and returns the state unchanged, so the phone numbers of
both the requesting and the owning account are untouched. -/
theorem C5_phone_conflict (db : DB) (rid : Nat) (newPhone code : String) (o : Otp)
    (u v : User) (t now : Nat)
    (hfo : db.otps.filter (fun x => x.phone_number == newPhone) = [o])
    (hcode : o.otp_code = code) (hct : o.created_at = some t)
    (hwin : now ≤ t + minutes 5) (hdig : pyIsDigit code = true)
    (hreq : db.users.find? (fun x => x.id == rid) = some u)
    (hv : v ∈ db.users) (hvp : v.phone_number = newPhone) (_hvu : v.id ≠ u.id) :
    changePhoneNumber db rid newPhone code now
      = (.clientError "phone number already exists", db) := by
  have hbv := baseValidate_ok hfo hcode hct hwin hdig
  have hany : db.users.any (fun x => x.phone_number == newPhone) = true :=
    List.any_eq_true.mpr ⟨v, hv, by simp [hvp]⟩
  simp [changePhoneNumber, hbv, hreq, hany]

/-- Witness for C5: user 1 cannot take user 2's number in `dbTwo`. -/
theorem C5_witness :
    changePhoneNumber dbTwo 1 "09222222222" "654321" 10
      = (Resp.clientError "phone number already exists", dbTwo) :=
  C5_phone_conflict dbTwo 1 "09222222222" "654321"
    { phone_number := "09222222222", otp_code := "654321", created_at := some 0 }
    { id := 1, phone_number := "09111111111", password := "a", is_active := true }
    { id := 2, phone_number := "09222222222", password := "b", is_active := true }
    0 10 (by decide) rfl rfl (by decide) (by decide) (by decide) (by decide) rfl
    (by decide)

/-- C9: with a stored OTP row present, a submitted value containing a non-digit
character never verifies, whatever the stored code's value, in any of the three
verify flows. -/
theorem C9_nondigit_rejected (db : DB) (phone otp : String) (o : Otp) (now : Nat)
    (hfo : db.otps.filter (fun x => x.phone_number == phone) = [o])
    (hnd : ∃ c ∈ otp.data, ¬ c.isDigit) :
    (∀ pw, (verifyUserOtp db phone otp pw now).fst ≠ Resp.ok)
    ∧ (∀ newPwd confirmPwd strong,
        (forgotPassword db phone otp newPwd confirmPwd now strong).fst ≠ Resp.ok)
    ∧ (∀ rid, (changePhoneNumber db rid phone otp now).fst ≠ Resp.ok) := by
  have hdig : pyIsDigit otp = false := by
    obtain ⟨c, hc, hnc⟩ := hnd
    have hall : otp.data.all Char.isDigit = false :=
      List.all_eq_false.mpr ⟨c, hc, by simpa using hnc⟩
    simp [pyIsDigit, hall]
  obtain ⟨r, hr, hrok⟩ := @baseValidate_nondigit db phone otp o now hfo hdig
  refine ⟨fun pw => ?_, fun a b s => ?_, fun rid => ?_⟩
  · simpa [verifyUserOtp, hr] using hrok
  · simpa [forgotPassword, forgotPasswordValidate, hr] using hrok
  · simpa [changePhoneNumber, hr] using hrok

/-- Witness for C9 with the non-numeric submission "12a456". -/
theorem C9_witness :
    (verifyUserOtp dbNew "09123456789" "12a456" none 10).fst ≠ Resp.ok :=
  (C9_nondigit_rejected dbNew "09123456789" "12a456"
      { phone_number := "09123456789", otp_code := "123456", created_at := some 0 }
      10 (by decide) (by decide)).1 none

/-- C10: when the phone number belongs to an existing but INACTIVE account, the
active-only lookup of the verify flow treats it as unregistered: without a
password it demands one via a validation error, and with a password the attempted
second insert is rejected by the phone-number uniqueness constraint as an uncaught
`IntegrityError` — not an Inactive or Conflict error; the inactive account is
never returned and the state is unchanged either way. -/
theorem C10_inactive_account (db : DB) (phone code : String) (o : Otp) (v : User)
    (t now : Nat)
    (hfo : db.otps.filter (fun x => x.phone_number == phone) = [o])
    (hcode : o.otp_code = code) (hct : o.created_at = some t)
    (hwin : now ≤ t + minutes 5) (hdig : pyIsDigit code = true)
    (hu : db.users.filter (fun x => x.phone_number == phone) = [v])
    (hina : v.is_active = false) :
    (∀ pw, pyTruthyStr pw = false →
        verifyUserOtp db phone code pw now
          = (.clientError "Password is required for registration", db))
    ∧ (∀ p : String, p ≠ "" →
        verifyUserOtp db phone code (some p) now
          = (.serverError "IntegrityError", db)) := by
  have hbv := baseValidate_ok hfo hcode hct hwin hdig
  have hvin : v ∈ db.users.filter (fun y => y.phone_number == phone) := by
    rw [hu]; exact List.mem_singleton.mpr rfl
  obtain ⟨hvmem, hvph⟩ := List.mem_filter.mp hvin
  have hfind : db.users.find? (fun x => x.phone_number == phone && x.is_active)
      = none := by
    rw [List.find?_eq_none]
    intro x hx hcontra
    rw [Bool.and_eq_true] at hcontra
    have hxv : x ∈ db.users.filter (fun y => y.phone_number == phone) :=
      List.mem_filter.mpr ⟨hx, hcontra.1⟩
    rw [hu, List.mem_singleton] at hxv
    subst hxv
    rw [hina] at hcontra
    exact Bool.false_ne_true hcontra.2
  have hany : db.users.any (fun x => x.phone_number == phone) = true :=
    List.any_eq_true.mpr ⟨v, hvmem, hvph⟩
  constructor
  · intro pw hpw
    simp [verifyUserOtp, hbv, hfind, hpw]
  · intro p hp
    simp [verifyUserOtp, hbv, hfind, pyTruthyStr_some hp, DB.create_user, hany]

/-- Witness for C10: registering over the inactive account in `dbInactive`. -/
theorem C10_witness :
    verifyUserOtp dbInactive "09120000002" "654321" (some "pass2") 10
      = (Resp.serverError "IntegrityError", dbInactive) :=
  (C10_inactive_account dbInactive "09120000002" "654321"
      { phone_number := "09120000002", otp_code := "654321", created_at := some 0 }
      { id := 1, phone_number := "09120000002", password := "pw0", is_active := false }
      0 10 (by decide) rfl rfl (by decide) (by decide) (by decide) rfl).2
    "pass2" (by decide)

/-- C4 counterexample: a forgot-password request whose OTP verifies but whose
phone number has no existing account is NOT answered with a structured 4xx client
error: it escapes as an uncaught `CustomUser.DoesNotExist`, surfaced as a 500
server error. -/
theorem C4_counterexample :
    forgotPassword dbNew "09123456789" "123456" "Newpass1" "Newpass1" 10 (fun _ => true)
      = (.serverError "CustomUser.DoesNotExist", dbNew) ∧
    ∀ msg,
      (forgotPassword dbNew "09123456789" "123456" "Newpass1" "Newpass1" 10
          (fun _ => true)).fst ≠ Resp.clientError msg := by
  have h : forgotPassword dbNew "09123456789" "123456" "Newpass1" "Newpass1" 10
      (fun _ => true) = (.serverError "CustomUser.DoesNotExist", dbNew) := by
    decide
  refine ⟨h, fun msg hmsg => ?_⟩
  rw [h] at hmsg
  simp at hmsg

/-- C4 (amended): errors raised as serializer validation errors are surfaced as
structured 4xx responses scoped to the request (illustrated by the missing-row
case, which leaves the state unchanged), but a forgot-password request whose OTP
verifies while NO account exists for the phone number escapes as an uncaught
`CustomUser.DoesNotExist` — a 500 server error, not a 4xx — also scoped to the
request (the state is unchanged). -/
theorem C4_amended_errors (db : DB) (phone code newPwd : String) (o : Otp)
    (t now : Nat) (strong : String → Bool)
    (hfo : db.otps.filter (fun x => x.phone_number == phone) = [o])
    (hcode : o.otp_code = code) (hct : o.created_at = some t)
    (hwin : now ≤ t + minutes 5) (hdig : pyIsDigit code = true)
    (hst : strong newPwd = true)
    (hnou : db.users.filter (fun x => x.phone_number == phone) = []) :
    forgotPassword db phone code newPwd newPwd now strong
      = (.serverError "CustomUser.DoesNotExist", db)
    ∧ ∀ (db2 : DB) (phone2 code2 newPwd2 : String) (now2 : Nat),
        db2.otps.filter (fun x => x.phone_number == phone2) = [] →
        forgotPassword db2 phone2 code2 newPwd2 newPwd2 now2 strong
          = (.clientError "invalid otp code or phone number.", db2) := by
  have hbv := baseValidate_ok hfo hcode hct hwin hdig
  constructor
  · simp [forgotPassword, forgotPasswordValidate, hbv, hst, getUser_notFound hnou]
  · intro db2 phone2 code2 newPwd2 now2 hempty
    have hnf : baseValidate db2 phone2 code2 now2
        = .error (.clientError "invalid otp code or phone number.") := by
      simp [baseValidate, getOtp_notFound hempty]
    simp [forgotPassword, forgotPasswordValidate, hnf]

/-- Witness for the amended C4 on `dbNew`. -/
theorem C4_witness :
    forgotPassword dbNew "09123456789" "123456" "Xyz12345" "Xyz12345" 10 (fun _ => true)
      = (Resp.serverError "CustomUser.DoesNotExist", dbNew) :=
  (C4_amended_errors dbNew "09123456789" "123456" "Xyz12345"
      { phone_number := "09123456789", otp_code := "123456", created_at := some 0 }
      0 10 (fun _ => true) (by decide) rfl rfl (by decide) (by decide) rfl
      (by decide)).1

/-- C6 counterexample: in `dbInactive` the phone number has no existing ACTIVE
account (its only account is inactive) and the OTP is valid, yet the verify
operation with a password does not create an account: the insert dies with an
uncaught `IntegrityError` and the state — in particular the user table — is
unchanged. -/
theorem C6_counterexample :
    dbInactive.users.all (fun u => !u.is_active) = true ∧
    verifyUserOtp dbInactive "09120000002" "654321" (some "newpass") 10
      = (.serverError "IntegrityError", dbInactive) := by
  constructor
  · decide
  · decide

/-- C6 (amended): for a phone number with NO existing account — active or
inactive — and a valid OTP, the verify operation without a password fails with the
registration validation error and leaves the state unchanged; with a (nonempty)
password it creates exactly one new active account for the phone number and
consumes the OTP row. -/
theorem C6_amended_registration (db : DB) (phone code : String) (o : Otp)
    (t now : Nat)
    (hfo : db.otps.filter (fun x => x.phone_number == phone) = [o])
    (hcode : o.otp_code = code) (hct : o.created_at = some t)
    (hwin : now ≤ t + minutes 5) (hdig : pyIsDigit code = true)
    (hnou : db.users.filter (fun x => x.phone_number == phone) = []) :
    (∀ pw, pyTruthyStr pw = false →
        verifyUserOtp db phone code pw now
          = (.clientError "Password is required for registration", db))
    ∧ (∀ p : String, p ≠ "" →
        verifyUserOtp db phone code (some p) now
          = ((.ok : Resp),
             ({ db with
                 users := db.users ++
                   [{ id := db.nextUserId, phone_number := phone, password := p,
                      is_active := true }],
                 nextUserId := db.nextUserId + 1 } : DB).deleteOtp phone)) := by
  have hop := phone_of_filter_single hfo
  have hbv := baseValidate_ok hfo hcode hct hwin hdig
  have hall := List.filter_eq_nil_iff.mp hnou
  have hfind : db.users.find? (fun x => x.phone_number == phone && x.is_active)
      = none := by
    rw [List.find?_eq_none]
    intro x hx hcontra
    rw [Bool.and_eq_true] at hcontra
    exact hall x hx hcontra.1
  have hany : db.users.any (fun x => x.phone_number == phone) = false := by
    rw [List.any_eq_false]
    exact hall
  constructor
  · intro pw hpw
    simp [verifyUserOtp, hbv, hfind, hpw]
  · intro p hp
    simp [verifyUserOtp, hbv, hfind, pyTruthyStr_some hp, create_user_ok hany, hop]

/-- Witness for the amended C6: registering on `dbNew` creates the one account. -/
theorem C6_witness :
    verifyUserOtp dbNew "09123456789" "123456" (some "pw9") 10
      = ((Resp.ok : Resp),
         ({ dbNew with
             users := dbNew.users ++
               [{ id := dbNew.nextUserId, phone_number := "09123456789",
                  password := "pw9", is_active := true }],
             nextUserId := dbNew.nextUserId + 1 } : DB).deleteOtp "09123456789") :=
  (C6_amended_registration dbNew "09123456789" "123456"
      { phone_number := "09123456789", otp_code := "123456", created_at := some 0 }
      0 10 (by decide) rfl rfl (by decide) (by decide) (by decide)).2 "pw9" (by decide)

end Learnly
